import Mathlib

/-!
Verification of the dotlineform-site content pipeline (scripts/generate_work_pages.py,
scripts/copy_draft_media_files.py, scripts/run_draft_pipeline.py).

The development shallowly embeds the Python code: spreadsheet cell values become an
inductive `Cell`, Python strings are Lean `String`s manipulated through faithful models
of the Python primitives used by the scripts (`str.strip`, `str.split`, `str.splitlines`,
`str.zfill`, ...), front-matter documents become association lists of a JSON-like value
type, and the blake2b-128 digest used for checksums is implemented in full so that
checksum comparisons evaluate concretely.  Functions that can raise in Python are
embedded as `Except String` computations.

Modelling notes (deliberate, harmless restrictions of unreachable behaviour):
* Unicode-only quirks of `str.isdigit` / `str.lower` / regex `\d` outside ASCII are not
  modelled; every identifier and status the scripts handle is ASCII.
* Python floats are not modelled; numeric cells are embedded as integers.  No claim
  touches float formatting.
* `datetime` values are modelled by their date part (the scripts only ever call
  `.date().isoformat()` on them / use them in emptiness tests).
-/

set_option maxRecDepth 40000

namespace DLF

/- ===================== Python string primitives ===================== -/

/-- The ASCII whitespace characters stripped by Python `str.strip()`. -/
def pyWhitespace : List Char :=
  [' ', Char.ofNat 9, Char.ofNat 10, Char.ofNat 13, Char.ofNat 11, Char.ofNat 12]

/-- Python `str.strip()` on a character list. -/
def pyStripList (l : List Char) : List Char :=
  ((l.dropWhile (fun c => c ∈ pyWhitespace)).reverse.dropWhile
    (fun c => c ∈ pyWhitespace)).reverse

/-- Python `str.strip()`. -/
def pyStrip (s : String) : String := String.mk (pyStripList s.data)

/-- Python emptiness test on a string (via the character list, which reduces
well under kernel evaluation). -/
def strEmpty (s : String) : Bool := s.data.isEmpty

/-- `str.startswith` (list-based for kernel evaluation). -/
def pyStartsWith (s pre : String) : Bool := pre.data.isPrefixOf s.data

/-- `str.endswith` (list-based for kernel evaluation). -/
def pyEndsWith (s suf : String) : Bool := suf.data.isSuffixOf s.data

/-- Python `str.isdigit()` (ASCII fragment). -/
def pyIsDigit (s : String) : Bool := !s.data.isEmpty && s.data.all Char.isDigit

/-- Python `str.lower()` (ASCII fragment). -/
def pyLower (s : String) : String := String.mk (s.data.map Char.toLower)

/-- Python `str.zfill(width)`: left-pad with zeros, keeping a leading sign in place. -/
def pyZfill (s : String) (width : Nat) : String :=
  let l := s.data
  if width ≤ l.length then s
  else
    match l with
    | c :: rest =>
      if c = '+' ∨ c = '-' then
        String.mk (c :: (List.replicate (width - l.length) '0' ++ rest))
      else String.mk (List.replicate (width - l.length) '0' ++ l)
    | [] => String.mk (List.replicate width '0')

/-- Split off the first occurrence of `sep` (nonempty) in `l`:
returns the part before it and the part after it. -/
def findSub (sep : List Char) : List Char → Option (List Char × List Char)
  | [] => none
  | c :: rest =>
    if sep.isPrefixOf (c :: rest) then some ([], (c :: rest).drop sep.length)
    else (findSub sep rest).map (fun p => (c :: p.1, p.2))

/-- Python `str.split(sep, maxsplit)` on character lists (`sep` nonempty). -/
def pySplitGo (sep : List Char) : Nat → List Char → List (List Char)
  | 0, l => [l]
  | Nat.succ k, l =>
    match findSub sep l with
    | none => [l]
    | some p => p.1 :: pySplitGo sep k p.2

/-- Python `str.split(sep, maxsplit)`. -/
def pySplit (sep : String) (maxsplit : Nat) (s : String) : List String :=
  (pySplitGo sep.data maxsplit s.data).map String.mk

/-- Python `str.split(sep)` without a maxsplit (a string of length `n` splits at most
`n` times, so a fuel of `n` is unlimited). -/
def pySplitAll (sep : String) (s : String) : List String :=
  pySplit sep s.data.length s

/-- The characters Python `str.splitlines()` treats as line boundaries
(besides the `\r\n` pair). -/
def pyLineBreakChars : List Char :=
  [Char.ofNat 10, Char.ofNat 13, Char.ofNat 11, Char.ofNat 12,
   Char.ofNat 28, Char.ofNat 29, Char.ofNat 30, Char.ofNat 133,
   Char.ofNat 8232, Char.ofNat 8233]

/-- Worker for Python `str.splitlines()`. -/
def pySplitlinesGo (acc : List Char) : List Char → List (List Char)
  | [] => if acc.isEmpty then [] else [acc.reverse]
  | c :: rest =>
    if c = Char.ofNat 13 then
      match rest with
      | d :: rest2 =>
        if d = Char.ofNat 10 then acc.reverse :: pySplitlinesGo [] rest2
        else acc.reverse :: pySplitlinesGo [] (d :: rest2)
      | [] => [acc.reverse]
    else if c ∈ pyLineBreakChars then acc.reverse :: pySplitlinesGo [] rest
    else pySplitlinesGo (c :: acc) rest

/-- Python `str.splitlines()`. -/
def pySplitlines (s : String) : List String :=
  (pySplitlinesGo [] s.data).map String.mk

/- ===================== Cell values ===================== -/

/-- A raw spreadsheet cell value as the scripts receive it from openpyxl. -/
inductive Cell where
  | cnone
  | cstr (s : String)
  | cint (n : Int)
  | cbool (b : Bool)
  | cdate (y m d : Nat)
  | cdatetime (y m d : Nat)
deriving DecidableEq

/-- Zero-padded decimal rendering (for ISO dates). -/
def natPad (n width : Nat) : String := pyZfill (toString n) width

/-- Python `date.isoformat()`. -/
def isoDate (y m d : Nat) : String :=
  natPad y 4 ++ "-" ++ natPad m 2 ++ "-" ++ natPad d 2

/-- Python `str(value)` on a cell value. -/
def pyStr : Cell → String
  | .cnone => "None"
  | .cstr s => s
  | .cint n => toString n
  | .cbool b => if b then "True" else "False"
  | .cdate y m d => isoDate y m d
  | .cdatetime y m d => isoDate y m d ++ " 00:00:00"

/- ===================== Record Normalizer (generate_work_pages.py) ===================== -/

/-- `normalize_text` (identical in all three scripts): trim and strip one leading
apostrophe (the spreadsheet text-escape artifact). -/
def normalize_text (value : Cell) : String :=
  match value with
  | .cnone => ""
  | _ =>
    let s := pyStrip (pyStr value)
    match s.data with
    | c :: d :: rest =>
      if c = Char.ofNat 39 then String.mk (d :: rest) else s
    | _ => s

/-- `normalize_status`. -/
def normalize_status (value : Cell) : String :=
  match value with
  | .cnone => ""
  | _ => pyLower (normalize_text value)

/-- `is_empty`. -/
def is_empty (value : Cell) : Bool :=
  match value with
  | .cnone => true
  | .cstr s => strEmpty (pyStrip s)
  | _ => false

/-- Remove a trailing `".0"` (the effect of `re.sub(r"\.0$", "", s)`). -/
def stripDotZero (s : String) : String :=
  if pyEndsWith s ".0" then String.mk s.data.dropLast.dropLast else s

/-- `slug_id`: normalise a numeric id to a fixed-width zero-padded digit string.
Raises (returns `.error`) on a missing id or an id with no digits. -/
def slug_id (raw : Cell) (width : Nat := 5) : Except String String :=
  match raw with
  | .cnone => .error "Missing id"
  | _ =>
    let s := normalize_text raw
    let s := stripDotZero s
    let s := String.mk (s.data.filter Char.isDigit)
    if strEmpty s then .error "Invalid id value" else .ok (pyZfill s width)

/-- One `[a-z0-9]` character. -/
def slugChar (c : Char) : Bool :=
  (97 ≤ c.toNat && c.toNat ≤ 122) || c.isDigit

/-- Full match of `^[a-z0-9]+(?:-[a-z0-9]+)*$` against a character list:
splitting on `-` must give nonempty all-slug-character groups. -/
def isSlugSafeCore (l : List Char) : Bool :=
  (pySplitGo [Char.ofNat 45] l.length l).all
    (fun p => !p.isEmpty && p.all slugChar)

/-- `is_slug_safe`.  Python's `$` also matches just before one trailing newline,
so that case is accepted too (unreachable through the stripped inputs the
scripts pass in, but kept for fidelity). -/
def is_slug_safe (s : String) : Bool :=
  isSlugSafeCore s.data ||
    (s.data.getLast? = some (Char.ofNat 10) && isSlugSafeCore s.data.dropLast)

/-- `require_slug_safe`: validate that a cell holds a slug-safe id. -/
def require_slug_safe (label : String) (raw : Cell) : Except String String :=
  match raw with
  | .cnone => .error ("Missing " ++ label)
  | _ =>
    let s := normalize_text raw
    if strEmpty s then .error ("Missing " ++ label)
    else if is_slug_safe s then .ok s
    else .error (label ++ " is not slug-safe: " ++ s)

/-- Proleptic-Gregorian leap year (Python `datetime`). -/
def isLeapYear (y : Nat) : Bool := y % 4 = 0 && (y % 100 ≠ 0 || y % 400 = 0)

/-- Days in a month (Python `datetime`). -/
def daysInMonth (y m : Nat) : Nat :=
  if m = 2 then (if isLeapYear y then 29 else 28)
  else if m = 4 ∨ m = 6 ∨ m = 9 ∨ m = 11 then 30
  else 31

/-- The arguments `datetime.date(y, m, d)` accepts without raising `ValueError`. -/
def validDate (y m d : Nat) : Bool :=
  1 ≤ y && y ≤ 9999 && 1 ≤ m && m ≤ 12 && 1 ≤ d && d ≤ daysInMonth y m

/-- Digits to a number (no signs; the regex groups are digit-only). -/
def digitsToNat (l : List Char) : Nat :=
  l.foldl (fun acc c => acc * 10 + (c.toNat - 48)) 0

/-- Full match of `^(\d{4})-(\d{1,2})-(\d{1,2})$` (again allowing Python's
`$`-before-one-trailing-newline). -/
def matchYMD (s : String) : Option (Nat × Nat × Nat) :=
  let (ys, r1) := s.data.span Char.isDigit
  if ys.length = 4 then
    match r1 with
    | c :: r2 =>
      if c = Char.ofNat 45 then
        let (ms, r3) := r2.span Char.isDigit
        if 1 ≤ ms.length ∧ ms.length ≤ 2 then
          match r3 with
          | c2 :: r4 =>
            if c2 = Char.ofNat 45 then
              let (ds, r5) := r4.span Char.isDigit
              if 1 ≤ ds.length ∧ ds.length ≤ 2 ∧
                  (r5 = [] ∨ r5 = [Char.ofNat 10]) then
                some (digitsToNat ys, digitsToNat ms, digitsToNat ds)
              else none
            else none
          | [] => none
        else none
      else none
    | [] => none
  else none

/-- The fall-through branch of `parse_date` for non-None, non-date cells:
blank to `none`, `YYYY-M-D` strings re-validated through `datetime.date`
(which raises on an invalid calendar date - hence the `Except`), anything
else passed through unchanged. -/
def parseDateStr (raw : Cell) : Except String (Option String) :=
  if strEmpty (pyStrip (pyStr raw)) then .ok none
  else
    let s := normalize_text raw
    match matchYMD s with
    | some (y, m, d) =>
      if validDate y m d then .ok (some (isoDate y m d))
      else .error "ValueError: invalid date"
    | none => .ok (some s)

/-- `parse_date`: `None`/blank to `none`, native dates pass through as ISO,
and strings go through `parseDateStr`. -/
def parse_date : Cell → Except String (Option String)
  | .cnone => .ok none
  | .cdatetime y m d => .ok (some (isoDate y m d))
  | .cdate y m d => .ok (some (isoDate y m d))
  | raw => parseDateStr raw

/-- `normalize_id` (copy_draft_media_files.py): trim, drop a trailing `.0`,
then zero-pad pure digit strings; anything else is returned as-is. -/
def normalize_id (value : Cell) (width : Nat) : String :=
  let s := normalize_text value
  let s := stripDotZero s
  if pyIsDigit s then pyZfill s width else s

/- ===================== Front-matter values ===================== -/

/-- A Python value stored in a front-matter document / JSON payload
(strings, ints, bools, None, lists, dicts; floats are restricted to
integers, see the header note). -/
inductive Json where
  | jnull
  | jbool (b : Bool)
  | jint (n : Int)
  | jstr (s : String)
  | jarr (items : List Json)
  | jobj (fields : List (String × Json))

/-- Python truthiness `bool(value)`. -/
def pyBool : Json → Bool
  | .jnull => false
  | .jbool b => b
  | .jint n => n ≠ 0
  | .jstr s => !(strEmpty s)
  | .jarr l => !l.isEmpty
  | .jobj l => !l.isEmpty

/-- Python `str(value)` on a front-matter value (the list/dict cases are
unreachable in the scalar positions where this is used). -/
def pyStrJ : Json → String
  | .jnull => "None"
  | .jbool b => if b then "True" else "False"
  | .jint n => toString n
  | .jstr s => s
  | .jarr _ => "[...]"
  | .jobj _ => "\x7b...\x7d"

/-- `is_empty` applied to a front-matter value. -/
def jIsEmpty : Json → Bool
  | .jnull => true
  | .jstr s => strEmpty (pyStrip s)
  | _ => false

/-- `normalize_text` applied to a front-matter value. -/
def jNormalizeText (v : Json) : String :=
  match v with
  | .jnull => ""
  | _ =>
    let s := pyStrip (pyStrJ v)
    match s.data with
    | c :: d :: rest =>
      if c = Char.ofNat 39 then String.mk (d :: rest) else s
    | _ => s

/-- Parse an optional sign followed by digits (the integral fragment of
Python `int(str)` / `float(str)` used by the coercers). -/
def parseIntStr (s : String) : Option Int :=
  let t := pyStrip s
  match t.data with
  | [] => none
  | c :: rest =>
    if c = '-' then
      if rest ≠ [] ∧ rest.all Char.isDigit then some (-(digitsToNat rest : Int)) else none
    else if c = '+' then
      if rest ≠ [] ∧ rest.all Char.isDigit then some (digitsToNat rest : Int) else none
    else if (c :: rest).all Char.isDigit then some (digitsToNat (c :: rest) : Int)
    else none

/-- `coerce_int`: best-effort integer coercion; `none` models Python `None`.
(Python treats `bool` as an `int` subtype; the rendering difference is
unreachable because boolean columns never feed integer keys.) -/
def coerce_int : Json → Option Int
  | .jnull => none
  | .jint n => some n
  | .jbool b => some (if b then 1 else 0)
  | .jstr s => if strEmpty (pyStrip s) then none else parseIntStr s
  | _ => none

/-- `coerce_numeric` restricted to integral values (see header note on floats). -/
def coerce_numeric : Json → Option Int
  | .jnull => none
  | .jint n => some n
  | .jbool b => some (if b then 1 else 0)
  | .jstr s => if strEmpty (pyStrip s) then none else parseIntStr s
  | _ => none

/-- `coerce_string`. -/
def coerce_string (v : Json) : Option String :=
  if jIsEmpty v then none
  else
    let s := jNormalizeText v
    if strEmpty s then none else some s

/-- `coerce_string` on a raw cell (the schema-level call sites). -/
def coerce_string_cell (v : Cell) : Option String :=
  if is_empty v then none
  else
    let s := normalize_text v
    if strEmpty s then none else some s

/-- `coerce_presence_bool`: non-empty cell means `true`. -/
def coerce_presence_bool (v : Cell) : Bool := !is_empty v

/- ===================== YAML emission ===================== -/

/-- `yaml_quote`: escape backslashes and double quotes, then wrap in quotes. -/
def yaml_quote (s : String) : String :=
  let esc := fun (c : Char) =>
    if c = Char.ofNat 92 then [Char.ofNat 92, Char.ofNat 92]
    else if c = Char.ofNat 34 then [Char.ofNat 92, Char.ofNat 34]
    else [c]
  "\"" ++ String.mk (s.data.map esc).flatten ++ "\""

/-- `NUMERIC_KEYS`. -/
def NUMERIC_KEYS : List String :=
  ["year", "height_cm", "width_cm", "depth_cm", "width_px", "height_px"]

/-- `BOOLEAN_KEYS`. -/
def BOOLEAN_KEYS : List String := ["has_primary_2400"]

/-- `dump_scalar`: one YAML `key: value` line with the script's typing rules. -/
def dump_scalar (key : String) (value : Json) : String :=
  match value with
  | .jnull =>
    if key ∈ BOOLEAN_KEYS then key ++ ": false" else key ++ ": null"
  | _ =>
    if key ∈ BOOLEAN_KEYS then
      key ++ ": " ++ (if pyBool value then "true" else "false")
    else if key ∈ NUMERIC_KEYS then
      if key = "year" then
        match coerce_int value with
        | some n => key ++ ": " ++ toString n
        | none => key ++ ": null"
      else
        match coerce_numeric value with
        | some n => key ++ ": " ++ toString n
        | none => key ++ ": null"
    else
      match coerce_string value with
      | some sv => key ++ ": " ++ yaml_quote sv
      | none => key ++ ": null"

/-- `dump_list_of_strings`. -/
def dump_list_of_strings (key : String) (values : List String) : List String :=
  (key ++ ":") :: values.map (fun v => "  - " ++ yaml_quote v)

/-- One item of `dump_list_of_dicts` (no `field_order` at the call site, so
insertion order of the dict is used). -/
def dumpDictItemLines (item : List (String × Json)) : List String :=
  "  -" :: item.map (fun kv =>
    match coerce_string kv.2 with
    | none => "    " ++ kv.1 ++ ": null"
    | some sv => "    " ++ kv.1 ++ ": " ++ yaml_quote sv)

/-- `dump_list_of_dicts`. -/
def dump_list_of_dicts (key : String) (items : List (List (String × Json))) :
    List String :=
  (key ++ ":") :: (items.map dumpDictItemLines).flatten

/-- Is this value a Python dict? -/
def isJObj : Json → Bool
  | .jobj _ => true
  | _ => false

/-- The fields of a dict value (else empty). -/
def jObjFields : Json → List (String × Json)
  | .jobj l => l
  | _ => []

/-- The YAML lines of `build_front_matter` for one field. -/
def fieldLines (k : String) (v : Json) : List String :=
  match v with
  | .jarr [] => [k ++ ": []"]
  | .jarr items =>
    if items.all isJObj then dump_list_of_dicts k (items.map jObjFields)
    else dump_list_of_strings k
      ((items.filter (fun x => !jIsEmpty x)).map pyStrJ)
  | _ => [dump_scalar k v]

/-- `build_front_matter`: the `---`-delimited YAML block with trailing newline. -/
def build_front_matter (fields : List (String × Json)) : String :=
  let lines := "---" :: (fields.map (fun kv => fieldLines kv.1 kv.2)).flatten ++ ["---"]
  String.intercalate "\n" lines ++ "\n"

/- ===================== Canonical JSON (json.dumps sort_keys separators) ===================== -/

/-- Lowercase hex digit. -/
def hexDigit (n : Nat) : Char :=
  if n < 10 then Char.ofNat (48 + n) else Char.ofNat (87 + n)

/-- `json.dumps` escaping with `ensure_ascii=False`: only `"`, `\` and
control characters are escaped. -/
def jsonEscapeChar (c : Char) : List Char :=
  if c = Char.ofNat 34 then [Char.ofNat 92, Char.ofNat 34]
  else if c = Char.ofNat 92 then [Char.ofNat 92, Char.ofNat 92]
  else if c = Char.ofNat 8 then [Char.ofNat 92, 'b']
  else if c = Char.ofNat 9 then [Char.ofNat 92, 't']
  else if c = Char.ofNat 10 then [Char.ofNat 92, 'n']
  else if c = Char.ofNat 12 then [Char.ofNat 92, 'f']
  else if c = Char.ofNat 13 then [Char.ofNat 92, 'r']
  else if c.toNat < 32 then
    [Char.ofNat 92, 'u', '0', '0', hexDigit (c.toNat / 16), hexDigit (c.toNat % 16)]
  else [c]

/-- A JSON string literal. -/
def jsonQuote (s : String) : String :=
  "\"" ++ String.mk (s.data.map jsonEscapeChar).flatten ++ "\""

/-- Python string comparison: code-point lexicographic `<=` on character lists. -/
def charListLe : List Char → List Char → Bool
  | [], _ => true
  | _ :: _, [] => false
  | a :: as, b :: bs =>
    if a.toNat < b.toNat then true
    else if b.toNat < a.toNat then false
    else charListLe as bs

/-- Python string `<=`. -/
def pyStrLe (a b : String) : Bool := charListLe a.data b.data

/-- Key-ordering used by `sort_keys=True` (keys in a dict are distinct, so
comparing keys is all `sorted(d.items())` ever does). -/
def keyLE (a b : String × String) : Prop := pyStrLe a.1 b.1 = true

instance : DecidableRel keyLE :=
  fun a b => inferInstanceAs (Decidable (pyStrLe a.1 b.1 = true))

mutual
/-- Canonical serialization: `json.dumps(v, sort_keys=True, ensure_ascii=False,
separators=(",", ":"))`. -/
def jsonCanon : Json → String
  | .jnull => "null"
  | .jbool b => if b then "true" else "false"
  | .jint n => toString n
  | .jstr s => jsonQuote s
  | .jarr items => "[" ++ String.intercalate "," (jsonCanonList items) ++ "]"
  | .jobj fields =>
    "\x7b" ++
      String.intercalate ","
        ((List.insertionSort keyLE (jsonCanonPairs fields)).map
          (fun kv => jsonQuote kv.1 ++ ":" ++ kv.2)) ++
      "\x7d"

/-- Canonical serializations of the elements of a list. -/
def jsonCanonList : List Json → List String
  | [] => []
  | j :: rest => jsonCanon j :: jsonCanonList rest

/-- Keys paired with the canonical serializations of their values. -/
def jsonCanonPairs : List (String × Json) → List (String × String)
  | [] => []
  | (k, v) :: rest => (k, jsonCanon v) :: jsonCanonPairs rest
end

/-- UTF-8 encoding of one character. -/
def utf8EncodeChar (c : Char) : List Nat :=
  let n := c.toNat
  if n < 128 then [n]
  else if n < 2048 then [192 + n / 64, 128 + n % 64]
  else if n < 65536 then [224 + n / 4096, 128 + (n / 64) % 64, 128 + n % 64]
  else [240 + n / 262144, 128 + (n / 4096) % 64, 128 + (n / 64) % 64, 128 + n % 64]

/-- `str.encode("utf-8")` as a byte list. -/
def utf8Encode (s : String) : List Nat := (s.data.map utf8EncodeChar).flatten

/- ===================== blake2b (RFC 7693), unkeyed ===================== -/

/-- 2^64. -/
def pow64 : Nat := 18446744073709551616

/-- Addition mod 2^64. -/
def add64 (a b : Nat) : Nat := (a + b) % pow64

/-- 64-bit right rotation. -/
def rotr64 (x n : Nat) : Nat :=
  Nat.lor (x >>> n) ((x <<< (64 - n)) % pow64)

/-- The blake2b initialization vector. -/
def blakeIV : List Nat :=
  [0x6a09e667f3bcc908, 0xbb67ae8584caa73b, 0x3c6ef372fe94f82b, 0xa54ff53a5f1d36f1,
   0x510e527fade682d1, 0x9b05688c2b3e6c1f, 0x1f83d9abfb41bd6b, 0x5be0cd19137e2179]

/-- The blake2b message schedule. -/
def blakeSigma : List (List Nat) :=
  [[0, 1, 2, 3, 4, 5, 6, 7, 8, 9, 10, 11, 12, 13, 14, 15],
   [14, 10, 4, 8, 9, 15, 13, 6, 1, 12, 0, 2, 11, 7, 5, 3],
   [11, 8, 12, 0, 5, 2, 15, 13, 10, 14, 3, 6, 7, 1, 9, 4],
   [7, 9, 3, 1, 13, 12, 11, 14, 2, 6, 5, 10, 4, 0, 15, 8],
   [9, 0, 5, 7, 2, 4, 10, 15, 14, 1, 11, 12, 6, 8, 3, 13],
   [2, 12, 6, 10, 0, 11, 8, 3, 4, 13, 7, 5, 15, 14, 1, 9],
   [12, 5, 1, 15, 14, 13, 4, 10, 0, 7, 6, 3, 9, 2, 8, 11],
   [13, 11, 7, 14, 12, 1, 3, 9, 5, 0, 15, 4, 8, 6, 2, 10],
   [6, 15, 14, 9, 11, 3, 0, 8, 12, 2, 13, 7, 1, 4, 10, 5],
   [10, 2, 8, 4, 7, 6, 1, 5, 15, 11, 9, 14, 3, 12, 13, 0]]

/-- The blake2b mixing function G on the 16-word working vector. -/
def blakeG (v : List Nat) (a b c d x y : Nat) : List Nat :=
  let va := add64 (add64 (v.getD a 0) (v.getD b 0)) x
  let vd := rotr64 (Nat.xor (v.getD d 0) va) 32
  let vc := add64 (v.getD c 0) vd
  let vb := rotr64 (Nat.xor (v.getD b 0) vc) 24
  let va := add64 (add64 va vb) y
  let vd := rotr64 (Nat.xor vd va) 16
  let vc := add64 vc vd
  let vb := rotr64 (Nat.xor vb vc) 63
  ((((v.set a va).set b vb).set c vc).set d vd)

/-- One blake2b round with schedule row `s` over message words `m`. -/
def blakeRound (m : List Nat) (v : List Nat) (s : List Nat) : List Nat :=
  let mi := fun (i : Nat) => m.getD (s.getD i 0) 0
  let v := blakeG v 0 4 8 12 (mi 0) (mi 1)
  let v := blakeG v 1 5 9 13 (mi 2) (mi 3)
  let v := blakeG v 2 6 10 14 (mi 4) (mi 5)
  let v := blakeG v 3 7 11 15 (mi 6) (mi 7)
  let v := blakeG v 0 5 10 15 (mi 8) (mi 9)
  let v := blakeG v 1 6 11 12 (mi 10) (mi 11)
  let v := blakeG v 2 7 8 13 (mi 12) (mi 13)
  blakeG v 3 4 9 14 (mi 14) (mi 15)

/-- Little-endian bytes to a word. -/
def leWord (bytes : List Nat) : Nat :=
  bytes.foldr (fun b acc => acc * 256 + b) 0

/-- A 128-byte block as 16 little-endian words. -/
def blockWords (block : List Nat) : List Nat :=
  (List.range 16).map (fun i => leWord ((block.drop (8 * i)).take 8))

/-- The blake2b compression function (`t` = byte counter, `last` = final flag). -/
def blakeCompress (h : List Nat) (m : List Nat) (t : Nat) (last : Bool) : List Nat :=
  let v := h ++ blakeIV
  let v := v.set 12 (Nat.xor (v.getD 12 0) (t % pow64))
  let v := v.set 13 (Nat.xor (v.getD 13 0) (t / pow64))
  let v := if last then v.set 14 (Nat.xor (v.getD 14 0) (pow64 - 1)) else v
  let v := (List.range 12).foldl (fun v r => blakeRound m v (blakeSigma.getD (r % 10) [])) v
  (List.range 8).map (fun i => Nat.xor (h.getD i 0) (Nat.xor (v.getD i 0) (v.getD (i + 8) 0)))

/-- Zero-pad a final block to 128 bytes. -/
def padBlock (l : List Nat) : List Nat := l ++ List.replicate (128 - l.length) 0

/-- Process the message 128 bytes at a time.  Structural recursion on a fuel
argument (each step consumes 128 bytes, so `data.length` is always enough fuel
and the `0` case with more than 128 bytes left is unreachable from
`blake2bLoop`). -/
def blake2bLoopF (fuel : Nat) (h : List Nat) (data : List Nat) (tBase : Nat) :
    List Nat :=
  match fuel with
  | 0 => blakeCompress h (blockWords (padBlock data)) (tBase + data.length) true
  | fuel + 1 =>
    if data.length ≤ 128 then
      blakeCompress h (blockWords (padBlock data)) (tBase + data.length) true
    else
      blake2bLoopF fuel (blakeCompress h (blockWords (data.take 128)) (tBase + 128) false)
        (data.drop 128) (tBase + 128)

/-- Process the message 128 bytes at a time. -/
def blake2bLoop (h : List Nat) (data : List Nat) (tBase : Nat) : List Nat :=
  blake2bLoopF data.length h data tBase

/-- The 8 little-endian bytes of a word. -/
def wordLEBytes (w : Nat) : List Nat :=
  (List.range 8).map (fun i => (w / 256 ^ i) % 256)

/-- Unkeyed blake2b with the given digest size in bytes. -/
def blake2b (data : List Nat) (digestSize : Nat) : List Nat :=
  let h0 := Nat.xor (blakeIV.getD 0 0) (0x01010000 + digestSize)
  let h := h0 :: blakeIV.drop 1
  (((blake2bLoop h data 0).map wordLEBytes).flatten).take digestSize

/-- Lowercase hex of a byte string. -/
def bytesToHex (bs : List Nat) : String :=
  String.mk ((bs.map (fun b => [hexDigit (b / 16), hexDigit (b % 16)])).flatten)

/-- `hashlib.blake2b(data, digest_size=16).hexdigest()`. -/
def blake2b128Hex (data : List Nat) : String := bytesToHex (blake2b data 16)

/- ===================== Checksums ===================== -/

/-- `payload.pop("checksum", None)`. -/
def popChecksum (fm : List (String × Json)) : List (String × Json) :=
  fm.filter (fun kv => kv.1 ≠ "checksum")

/-- `compute_work_checksum`: blake2b-128 over the canonical JSON of the front
matter minus its own `checksum` field. -/
def compute_work_checksum (fm : List (String × Json)) : String :=
  blake2b128Hex (utf8Encode (jsonCanon (Json.jobj (popChecksum fm))))

/-- `compute_series_hash`. -/
def compute_series_hash (seriesId : String) (workIds : List String) : String :=
  blake2b128Hex (utf8Encode (jsonCanon (Json.jobj
    [("series_id", .jstr seriesId), ("work_ids", .jarr (workIds.map .jstr))])))

/-- `extract_existing_checksum` given the text of an existing page (the caller
models a missing/unreadable file as `none` before calling this). -/
def extractChecksumFromLines : List String → Option String
  | [] => none
  | line :: rest =>
    if pyStartsWith line "checksum:" then
      let raw := pyStrip ((pySplit ":" 1 line).getD 1 "")
      if raw = "null" ∨ raw = "" then none
      else if pyStartsWith raw "\"" ∧ pyEndsWith raw "\"" ∧ 2 ≤ raw.data.length then
        some (String.mk ((raw.data.drop 1).dropLast))
      else some raw
    else extractChecksumFromLines rest

/-- `extract_existing_checksum`: only the first `---`-delimited front-matter
block is inspected, and the first `checksum:` line in it decides the result. -/
def extract_existing_checksum (text : String) : Option String :=
  if !pyStartsWith text "---" then none
  else
    let parts := pySplit "---" 2 text
    if parts.length < 3 then none
    else extractChecksumFromLines (pySplitlines (parts.getD 1 ""))

/- ===================== Page/Index Writer (Works loop) ===================== -/

/-- The two CLI flags that drive the writer. -/
structure GenArgs where
  write : Bool
  force : Bool
deriving DecidableEq

/-- `is_actionable_status` (the same closure appears verbatim for works,
series, work details, and moments). -/
def is_actionable_status (statusValue : String) (force : Bool) : Bool :=
  if statusValue = "draft" then true
  else if statusValue = "published" && force then true
  else false

/-- The per-record mutable state a Works-loop iteration touches: the row's
status and published_date cells and the output file (`none` = absent). -/
structure WorkRowState where
  statusCell : Cell
  publishedDateCell : Cell
  outFile : Option String
deriving DecidableEq

/-- The `write_page` closure: decide write (`true`) vs checksum-match skip
(`false`).  The existing checksum is extracted only when the file exists. -/
def write_page (file : Option String) (checksum : String) (force : Bool) : Bool :=
  let existingChecksum :=
    match file with
    | some text => extract_existing_checksum text
    | none => none
  if existingChecksum ≠ none ∧ existingChecksum = some checksum ∧ force = false then
    false
  else true

/-- Result of one Works-loop iteration on one record. -/
structure StepResult where
  state : WorkRowState
  wrote : Bool
deriving DecidableEq

/-- One iteration of the Works loop for a single record, from the already-built
front matter `fm` (without `checksum`) and page body: the status gate, the
checksum embedding, the `write_page` decision, and the post-write status /
published_date mutation (which runs only in write mode, after the write). -/
def processWorkRecord (args : GenArgs) (today : Cell) (fm : List (String × Json))
    (body : String) (st : WorkRowState) : StepResult :=
  let status := normalize_status st.statusCell
  if is_actionable_status status args.force then
    let checksum := compute_work_checksum fm
    let fmOut := fm ++ [("checksum", Json.jstr checksum)]
    let content := build_front_matter fmOut ++ "\n" ++ body
    if write_page st.outFile checksum args.force then
      if args.write then
        let st1 : WorkRowState := { st with outFile := some content }
        let statusWas := normalize_status st1.statusCell
        let st2 : WorkRowState :=
          if statusWas ≠ "published" then { st1 with statusCell := Cell.cstr "published" }
          else st1
        let st3 : WorkRowState :=
          if statusWas ≠ "published" ∨ args.force = true then
            { st2 with publishedDateCell := today }
          else st2
        ⟨st3, true⟩
      else ⟨st, true⟩
    else ⟨st, false⟩
  else ⟨st, false⟩

/- ===================== Series page writer ===================== -/

/-- The series-page skip decision: full-text comparison of the existing file
with the freshly generated content (`existingText = none` models a missing or
unreadable file), never the embedded checksum. -/
def seriesPageSkips (existingText : Option String) (seriesContent : String)
    (force : Bool) : Bool :=
  let needsWrite := existingText ≠ some seriesContent
  if ¬needsWrite ∧ force = false then true else false

/- ===================== Work-details JSON assembly ===================== -/

/-- The WorkDetails columns the JSON assembly loop reads. -/
structure DetailRow where
  work_id : Cell
  detail_id : Cell
  project_subfolder : Cell
  title : Cell
  has_primary_2400 : Cell
  status : Cell
deriving DecidableEq

/-- One entry of a section's `details` list. -/
structure Detail where
  detail_id : String
  detail_uid : String
  title : Option String
  has_primary_2400 : Bool
deriving DecidableEq

/-- One entry of a work's `sections` list. -/
structure DetailSection where
  project_subfolder : String
  details : List Detail
deriving DecidableEq

/-- Append a detail to the (unique) section with this subfolder, creating the
section at the end on first encounter — the `section_index_by_work` scheme. -/
def addToSections (secs : List DetailSection) (sub : String) (det : Detail) :
    List DetailSection :=
  if secs.any (fun s => s.project_subfolder = sub) then
    secs.map (fun s =>
      if s.project_subfolder = sub then { s with details := s.details ++ [det] } else s)
  else secs ++ [{ project_subfolder := sub, details := [det] }]

/-- The per-work slice of the `sections_by_work` assembly loop: worksheet order
is kept for both section order and detail order; only currently published
detail rows of this work contribute. -/
def buildWorkSections (wid : String) (acc : List DetailSection) :
    List DetailRow → Except String (List DetailSection)
  | [] => .ok acc
  | dr :: rest =>
    if is_empty dr.work_id ∨ is_empty dr.detail_id then
      buildWorkSections wid acc rest
    else
      match slug_id dr.work_id 5 with
      | .error e => .error e
      | .ok rwid =>
        if rwid ≠ wid then buildWorkSections wid acc rest
        else if normalize_status dr.status ≠ "published" then
          buildWorkSections wid acc rest
        else
          match slug_id dr.detail_id 3 with
          | .error e => .error e
          | .ok did =>
            let detailUid := wid ++ "-" ++ did
            let sub := (coerce_string_cell dr.project_subfolder).getD ""
            let det : Detail :=
              { detail_id := did, detail_uid := detailUid,
                title := coerce_string_cell dr.title,
                has_primary_2400 := coerce_presence_bool dr.has_primary_2400 }
            buildWorkSections wid (addToSections acc sub det) rest

/-- A detail as the JSON dict built at lines 1393-1400 of the script. -/
def detailJson (d : Detail) : Json :=
  .jobj [("detail_id", .jstr d.detail_id), ("detail_uid", .jstr d.detail_uid),
         ("title", match d.title with | some t => .jstr t | none => .jnull),
         ("has_primary_2400", .jbool d.has_primary_2400)]

/-- A section as the JSON dict built at lines 1386-1390 of the script. -/
def sectionJson (s : DetailSection) : Json :=
  .jobj [("project_subfolder", .jstr s.project_subfolder),
         ("details", .jarr (s.details.map detailJson))]

/-- `compute_work_details_hash`. -/
def compute_work_details_hash (workId : String) (sections : List DetailSection) :
    String :=
  blake2b128Hex (utf8Encode (jsonCanon (Json.jobj
    [("work_id", .jstr workId), ("sections", .jarr (sections.map sectionJson))])))

/-- Python string `<=` as a relation. -/
def strLe (a b : String) : Prop := pyStrLe a b = true

instance : DecidableRel strLe :=
  fun a b => inferInstanceAs (Decidable (pyStrLe a b = true))

/-- Python `sorted` on strings (code-point lexicographic). -/
def pySorted (l : List String) : List String :=
  List.insertionSort strLe l

/- ===================== Scope Filter ===================== -/

/-- Insert into the list model of a Python `set` (membership is what matters). -/
def insertSet (x : String) (acc : List String) : List String :=
  if x ∈ acc then acc else acc ++ [x]

/-- `{slug_id(w.strip()) for w in items if w.strip()}` with starting set `acc`:
the shared set-comprehension shape of `selected_ids` (generate_work_pages.py)
and the inline update (run_draft_pipeline.py). -/
def insertSlugIds (acc : List String) : List String → Except String (List String)
  | [] => .ok acc
  | w :: rest =>
    if strEmpty (pyStrip w) then insertSlugIds acc rest
    else
      match slug_id (Cell.cstr (pyStrip w)) 5 with
      | .error e => .error e
      | .ok v => insertSlugIds (insertSet v acc) rest

/-- `selected_ids` in generate_work_pages.py (lines 648-656): the ids file, when
given, is used *instead of* the inline list (`if`/`elif`); with neither flag the
result is `none` (no restriction).  `workIdsFileText` is the text of the ids
file (`none` = flag not passed), `workIds` the inline argument (`""` = not
passed). -/
def selectedWorkIdsGen (workIdsFileText : Option String) (workIds : String) :
    Except String (Option (List String)) :=
  match workIdsFileText with
  | some text => (insertSlugIds [] (pySplitlines text)).map some
  | none =>
    if workIds ≠ "" then (insertSlugIds [] (pySplitAll "," workIds)).map some
    else .ok none

/-- `read_ids` in run_draft_pipeline.py: the set of stripped nonblank lines of a
manifest file (no normalisation). -/
def readIds (fileText : String) : List String :=
  (pySplitlines fileText).foldl
    (fun acc line =>
      let s := pyStrip line
      if strEmpty s then acc else insertSet s acc) []

/-- `read_optional_ids_file`: the empty set when the flag is absent, else the
ids read from the manifest file. -/
def pipelineBase (workIdsFileText : Option String) : List String :=
  match workIdsFileText with
  | none => []
  | some t => readIds t

/-- `explicit_work_ids` in run_draft_pipeline.py (lines 364-366): the ids-file
set (raw) unioned with the slug-normalised inline ids. -/
def explicitWorkIdsPipeline (workIdsFileText : Option String) (workIds : String) :
    Except String (List String) :=
  if workIds ≠ "" then
    insertSlugIds (pipelineBase workIdsFileText) (pySplitAll "," workIds)
  else .ok (pipelineBase workIdsFileText)

/- ===================== Series scope resolution ===================== -/

/-- The Works columns the series scope resolution reads. -/
structure WorkRow where
  work_id : Cell
  series_id : Cell
deriving DecidableEq

/-- The `affected_series_ids` loop (lines 892-906): the series ids referenced by
the selected works (skipping blank ids, unselected works, blank series cells,
and non-slug-safe series ids). -/
def affectedSeriesIds (selectedIds : Option (List String)) (acc : List String) :
    List WorkRow → Except String (List String)
  | [] => .ok acc
  | wr :: rest =>
    if is_empty wr.work_id then affectedSeriesIds selectedIds acc rest
    else
      match slug_id wr.work_id 5 with
      | .error e => .error e
      | .ok wid =>
        -- `if selected_ids is None or wid not in selected_ids: continue`
        if (match selectedIds with
            | none => true
            | some ids => decide (wid ∉ ids)) then
          affectedSeriesIds selectedIds acc rest
        else if is_empty wr.series_id then affectedSeriesIds selectedIds acc rest
        else
          let sid := normalize_text wr.series_id
          if is_slug_safe sid then affectedSeriesIds selectedIds (insertSet sid acc) rest
          else affectedSeriesIds selectedIds acc rest

/-- The series scope resolution (lines 887-906): given whether an explicit work
filter is active, the explicit series scope, the selected work ids, and the
Works rows, produce `(run_series_pages, series_json_selected_ids)`. -/
def resolveSeriesScope (explicitWorkFilter : Bool)
    (selectedSeriesIds : Option (List String)) (selectedIds : Option (List String))
    (rows : List WorkRow) : Except String (Bool × Option (List String)) :=
  match explicitWorkFilter, selectedSeriesIds with
  | true, none => (affectedSeriesIds selectedIds [] rows).map (fun l => (false, some l))
  | _, sel => .ok (true, sel)

/- ===================== Helper lemmas ===================== -/

/-- Is an `Except` computation a success? -/
def exceptOk {α : Type} : Except String α → Bool
  | .ok _ => true
  | .error _ => false

/-- Does the fall-through branch of `parse_date` raise on this cell? -/
def parseDateStrRaises (raw : Cell) : Bool :=
  if strEmpty (pyStrip (pyStr raw)) then false
  else
    match matchYMD (normalize_text raw) with
    | some (y, m, d) => !validDate y m d
    | none => false

/-- Does `parse_date` raise on this cell?  (It does exactly when the cell is a
string-like value matching `YYYY-M-D` whose components are not a valid
calendar date.) -/
def parse_date_raises (raw : Cell) : Bool :=
  match raw with
  | .cnone => false
  | .cdatetime _ _ _ => false
  | .cdate _ _ _ => false
  | raw => parseDateStrRaises raw

/-- A published detail row of work 1, detail 1, titled A. -/
def detailRowA : DetailRow :=
  ⟨Cell.cstr "1", Cell.cstr "1", Cell.cnone, Cell.cstr "A", Cell.cnone,
   Cell.cstr "published"⟩

/-- A published detail row of work 1, detail 2, titled B. -/
def detailRowB : DetailRow :=
  ⟨Cell.cstr "1", Cell.cstr "2", Cell.cnone, Cell.cstr "B", Cell.cnone,
   Cell.cstr "published"⟩

/-- The front matter `{work_id: "00001", title: "Arc"}` of the spec's scenario. -/
def fmArc : List (String × Json) :=
  [("work_id", Json.jstr "00001"), ("title", Json.jstr "Arc")]

/-- A draft row with no published date and no existing output file. -/
def stDraft : WorkRowState := ⟨Cell.cstr "draft", Cell.cnone, none⟩

/-- When does one Works row put its series id `x` into `affected_series_ids`?
Exactly when the row has a nonblank work id whose canonical form is selected,
a nonblank series cell normalising to `x`, and `x` is slug-safe. -/
def rowContribution (ids : List String) (wr : WorkRow) (x : String) : Prop :=
  is_empty wr.work_id = false ∧
  (∃ wid, slug_id wr.work_id 5 = .ok wid ∧ wid ∈ ids) ∧
  is_empty wr.series_id = false ∧
  normalize_text wr.series_id = x ∧
  is_slug_safe x = true

/-- Demo Works rows: works 1 and 3 are in series `dots`, work 2 in `curve`. -/
def demoWorksRows : List WorkRow :=
  [⟨Cell.cstr "1", Cell.cstr "dots"⟩, ⟨Cell.cstr "2", Cell.cstr "curve"⟩,
   ⟨Cell.cstr "3", Cell.cstr "dots"⟩]

theorem mem_insertSet {y x : String} {acc : List String} :
    y ∈ insertSet x acc ↔ y = x ∨ y ∈ acc := by
  unfold insertSet
  split
  · rename_i hmem
    constructor
    · exact fun h => Or.inr h
    · rintro (rfl | h)
      · exact hmem
      · exact h
  · simp [List.mem_append, or_comm]

theorem charListLe_cons_iff {a b : Char} {as bs : List Char} :
    charListLe (a :: as) (b :: bs) = true ↔
      a.toNat < b.toNat ∨ (a.toNat = b.toNat ∧ charListLe as bs = true) := by
  simp only [charListLe]
  by_cases h1 : a.toNat < b.toNat
  · simp [h1]
  · by_cases h2 : b.toNat < a.toNat
    · have hfalse :
        (if a.toNat < b.toNat then true
         else if b.toNat < a.toNat then false else charListLe as bs) = false := by
        simp [h1, h2]
      rw [hfalse]
      constructor
      · intro h
        simp at h
      · rintro (h | ⟨he, -⟩)
        · exact absurd h (by omega)
        · exact absurd he (by omega)
    · have he : a.toNat = b.toNat := by omega
      simp [h1, h2, he]

theorem charListLe_total : ∀ a b : List Char,
    charListLe a b = true ∨ charListLe b a = true
  | [], _ => Or.inl rfl
  | _ :: _, [] => Or.inr rfl
  | a :: as, b :: bs => by
    rcases Nat.lt_trichotomy a.toNat b.toNat with h | h | h
    · exact Or.inl (charListLe_cons_iff.mpr (Or.inl h))
    · rcases charListLe_total as bs with hr | hr
      · exact Or.inl (charListLe_cons_iff.mpr (Or.inr ⟨h, hr⟩))
      · exact Or.inr (charListLe_cons_iff.mpr (Or.inr ⟨h.symm, hr⟩))
    · exact Or.inr (charListLe_cons_iff.mpr (Or.inl h))

theorem charListLe_trans : ∀ a b c : List Char,
    charListLe a b = true → charListLe b c = true → charListLe a c = true
  | [], _, _, _, _ => rfl
  | _ :: _, [], _, h, _ => by simp [charListLe] at h
  | _ :: _, _ :: _, [], _, h => by simp [charListLe] at h
  | a :: as, b :: bs, c :: cs, h1, h2 => by
    rw [charListLe_cons_iff] at h1 h2 ⊢
    rcases h1 with h1 | ⟨h1e, h1r⟩ <;> rcases h2 with h2 | ⟨h2e, h2r⟩
    · exact Or.inl (by omega)
    · exact Or.inl (by omega)
    · exact Or.inl (by omega)
    · exact Or.inr ⟨by omega, charListLe_trans as bs cs h1r h2r⟩

theorem charListLe_antisymm : ∀ a b : List Char,
    charListLe a b = true → charListLe b a = true → a = b
  | [], [], _, _ => rfl
  | [], _ :: _, _, h => by simp [charListLe] at h
  | _ :: _, [], h, _ => by simp [charListLe] at h
  | a :: as, b :: bs, h1, h2 => by
    rw [charListLe_cons_iff] at h1 h2
    rcases h1 with h1 | ⟨h1e, h1r⟩ <;> rcases h2 with h2 | ⟨h2e, h2r⟩
    · omega
    · omega
    · omega
    · have hab : a = b := by
        have := congrArg Char.ofNat h1e
        rwa [Char.ofNat_toNat, Char.ofNat_toNat] at this
      rw [hab, charListLe_antisymm as bs h1r h2r]

/-- Sorting with `pySorted` is invariant under permutation of the input. -/
theorem pySorted_perm_eq {l1 l2 : List String} (h : l1.Perm l2) :
    pySorted l1 = pySorted l2 := by
  haveI : IsTotal String strLe := ⟨fun a b => charListLe_total a.data b.data⟩
  haveI : IsTrans String strLe := ⟨fun a b c => charListLe_trans a.data b.data c.data⟩
  haveI : IsAntisymm String strLe :=
    ⟨fun a b h1 h2 => by
      cases a; cases b
      exact congrArg String.mk (charListLe_antisymm _ _ h1 h2)⟩
  exact List.eq_of_perm_of_sorted
    ((List.perm_insertionSort _ l1).trans (h.trans (List.perm_insertionSort _ l2).symm))
    (List.sorted_insertionSort _ l1) (List.sorted_insertionSort _ l2)

/- ===================== Claim theorems ===================== -/

/-- C5: the status gate: `draft` is always actionable, `published` is actionable
exactly when the force flag is set, and any other status is never actionable. -/
theorem status_gate_characterization :
    ∀ force : Bool,
      is_actionable_status "draft" force = true ∧
      is_actionable_status "published" force = force ∧
      ∀ s : String, s ≠ "draft" → s ≠ "published" →
        is_actionable_status s force = false := by
  intro force
  refine ⟨rfl, by cases force <;> rfl, ?_⟩
  intro s h1 h2
  unfold is_actionable_status
  simp [h1, h2]

/-- Witness for C5 at the unrecognized status `maybe`. -/
theorem status_gate_characterization_witness :
    is_actionable_status "maybe" true = false ∧
    is_actionable_status "maybe" false = false :=
  ⟨(status_gate_characterization true).2.2 "maybe" (by decide) (by decide),
   (status_gate_characterization false).2.2 "maybe" (by decide) (by decide)⟩

/-- C3: `write_page` skips (returns `false`) iff the existing file yields an
embedded checksum equal to the fresh one and force is off; in particular with
force set it always writes. -/
theorem write_page_skip_iff :
    ∀ (file : Option String) (checksum : String) (force : Bool),
      (write_page file checksum force = false ↔
        (∃ t, file = some t ∧ extract_existing_checksum t = some checksum) ∧
          force = false) ∧
      (force = true → write_page file checksum force = true) := by
  intro file checksum force
  unfold write_page
  rcases file with _ | t
  · simp
  · rcases h : extract_existing_checksum t with _ | c0 <;> simp [h]
    rintro rfl
    simp

/-- Witness for C3: a file whose embedded checksum matches the fresh one is
skipped without force and written with force. -/
theorem write_page_skip_iff_witness :
    write_page (some "---\nchecksum: \"abc\"\n---\nbody\n") "abc" false = false ∧
    write_page (some "---\nchecksum: \"abc\"\n---\nbody\n") "abc" true = true :=
  ⟨(write_page_skip_iff (some "---\nchecksum: \"abc\"\n---\nbody\n") "abc"
      false).1.mpr ⟨⟨_, rfl, by decide⟩, rfl⟩,
   (write_page_skip_iff (some "---\nchecksum: \"abc\"\n---\nbody\n") "abc"
      true).2 rfl⟩

/-- C10: the series page writer skips iff the existing file text is identical to
the fresh content and force is off — it never consults the embedded checksum
(two existing files with the same embedded checksum get opposite decisions when
only one matches the content byte-for-byte). -/
theorem series_page_full_text_skip :
    (∀ (existingText : Option String) (content : String) (force : Bool),
       seriesPageSkips existingText content force = true ↔
         existingText = some content ∧ force = false) ∧
    (extract_existing_checksum "---\nchecksum: \"abc\"\n---\nbody\n" = some "abc" ∧
     extract_existing_checksum "---\nchecksum: \"abc\"\n---\nbody\nextra\n" = some "abc" ∧
     seriesPageSkips (some "---\nchecksum: \"abc\"\n---\nbody\n")
       "---\nchecksum: \"abc\"\n---\nbody\n" false = true ∧
     seriesPageSkips (some "---\nchecksum: \"abc\"\n---\nbody\nextra\n")
       "---\nchecksum: \"abc\"\n---\nbody\n" false = false) := by
  constructor
  · intro existingText content force
    unfold seriesPageSkips
    rcases existingText with _ | t
    · simp
    · by_cases ht : t = content
      · subst ht
        cases force <;> simp
      · cases force <;> simp [ht]
  · refine ⟨by decide, by decide, by decide, by decide⟩

/-- C8: ID normalization round-trips: `"361.0"` and `"00361"` both normalise to
`"00361"` at width 5, and the non-slug-safe id `"Bad Id!"` is rejected with an
error rather than a value. -/
theorem id_normalization_roundtrip :
    normalize_id (Cell.cstr "361.0") 5 = "00361" ∧
    normalize_id (Cell.cstr "00361") 5 = "00361" ∧
    require_slug_safe "id" (Cell.cstr "Bad Id!") =
      .error "id is not slug-safe: Bad Id!" := by
  refine ⟨by decide, by decide, rfl⟩

/-- C9 counterexample: `parse_date` *can* raise: `"2024-13-01"` matches the
`YYYY-M-D` pattern, so the code calls `datetime.date(2024, 13, 1)`, which
raises `ValueError` instead of passing the string through. -/
theorem parse_date_raises_counterexample :
    matchYMD "2024-13-01" = some (2024, 13, 1) ∧
    parse_date (Cell.cstr "2024-13-01") = .error "ValueError: invalid date" :=
  ⟨rfl, rfl⟩

theorem parseDateStr_ok_iff (c : Cell) :
    exceptOk (parseDateStr c) = !parseDateStrRaises c := by
  unfold parseDateStr parseDateStrRaises
  by_cases he : strEmpty (pyStrip (pyStr c)) = true
  · simp [he, exceptOk]
  · simp only [Bool.not_eq_true] at he
    simp only [he, Bool.false_eq_true, if_false]
    rcases hm : matchYMD (normalize_text c) with _ | ⟨y, m, d⟩
    · simp [exceptOk]
    · by_cases hv : validDate y m d = true <;> simp [hv, exceptOk]

/-- C9 amended: `parse_date` returns a value for every input *except* strings
matching `YYYY-M-D` with an invalid calendar date, on which it raises. -/
theorem parse_date_total_unless_invalid_calendar :
    ∀ raw : Cell, exceptOk (parse_date raw) = !parse_date_raises raw := by
  intro raw
  cases raw
  case cnone => rfl
  case cdate y m d => rfl
  case cdatetime y m d => rfl
  case cstr s => exact parseDateStr_ok_iff (Cell.cstr s)
  case cint n => exact parseDateStr_ok_iff (Cell.cint n)
  case cbool b => exact parseDateStr_ok_iff (Cell.cbool b)

/- ===================== C2: work-details hash vs row order ===================== -/

/-- C2 counterexample: `compute_work_details_hash` is *not* invariant under
reordering of the joined child detail rows — the sections payload keeps
worksheet order, nothing is sorted before hashing.  Swapping two published
detail rows of the same work changes the digest. -/
theorem details_hash_not_reorder_invariant :
    List.Perm [detailRowA, detailRowB] [detailRowB, detailRowA] ∧
    (buildWorkSections "00001" [] [detailRowA, detailRowB]).map
        (compute_work_details_hash "00001") =
      .ok "eb4fd696dd2e12b02e61a114b618c3d2" ∧
    (buildWorkSections "00001" [] [detailRowB, detailRowA]).map
        (compute_work_details_hash "00001") =
      .ok "271390c35fcaaf8d55512f9a45e84218" ∧
    ("eb4fd696dd2e12b02e61a114b618c3d2" : String) ≠
      "271390c35fcaaf8d55512f9a45e84218" :=
  ⟨List.Perm.swap detailRowB detailRowA [], rfl, rfl, by decide⟩

/-- C2 amended: the reorder-invariance the spec describes holds at the one place
a list is sorted by a stable key before hashing: the series JSON hash, whose
`work_ids` list is sorted first, is invariant under permutation of the
collected work ids. -/
theorem series_hash_reorder_invariant (sid : String) (l1 l2 : List String)
    (h : l1.Perm l2) :
    compute_series_hash sid (pySorted l1) = compute_series_hash sid (pySorted l2) := by
  rw [pySorted_perm_eq h]

/-- Witness for the amended C2 at a concrete permutation. -/
theorem series_hash_reorder_invariant_witness :
    compute_series_hash "dots" (pySorted ["00002", "00001"]) =
      compute_series_hash "dots" (pySorted ["00001", "00002"]) :=
  series_hash_reorder_invariant "dots" ["00002", "00001"] ["00001", "00002"]
    (by decide)

/- ===================== C1 / C4: two-run idempotence and the frame of skips ===================== -/

/-- C1: a record whose source row is unchanged between two consecutive plain
write-mode runs (no force): if the row is a draft and run 1 writes, then run 2
performs no write and leaves the state untouched (the status flipped to
`published` by run 1, so the record is no longer actionable by status; and had
it stayed actionable, the checksum embedded by run 1 would be re-extracted and
match). -/
theorem writer_idempotent_two_runs (fm : List (String × Json)) (body : String)
    (today : Cell) (st : WorkRowState)
    (hd : normalize_status st.statusCell = "draft")
    (hw : write_page st.outFile (compute_work_checksum fm) false = true) :
    (processWorkRecord ⟨true, false⟩ today fm body st).wrote = true ∧
    (processWorkRecord ⟨true, false⟩ today fm body
        (processWorkRecord ⟨true, false⟩ today fm body st).state).wrote = false ∧
    (processWorkRecord ⟨true, false⟩ today fm body
        (processWorkRecord ⟨true, false⟩ today fm body st).state).state =
      (processWorkRecord ⟨true, false⟩ today fm body st).state := by
  have h1 : processWorkRecord ⟨true, false⟩ today fm body st =
      ⟨⟨Cell.cstr "published", today,
        some (build_front_matter
            (fm ++ [("checksum", Json.jstr (compute_work_checksum fm))]) ++
          "\n" ++ body)⟩, true⟩ := by
    unfold processWorkRecord
    simp [hd, hw, is_actionable_status]
  have hpub : normalize_status (Cell.cstr "published") = "published" := by decide
  have h2 : ∀ f : Option String,
      processWorkRecord ⟨true, false⟩ today fm body ⟨Cell.cstr "published", today, f⟩ =
        ⟨⟨Cell.cstr "published", today, f⟩, false⟩ := by
    intro f
    unfold processWorkRecord
    simp [hpub, is_actionable_status]
  refine ⟨by rw [h1], by rw [h1, h2], by rw [h1, h2]⟩

/-- Witness for C1: the scenario record, fresh output. -/
theorem writer_idempotent_two_runs_witness :
    (processWorkRecord ⟨true, false⟩ (Cell.cdate 2026 10 12) fmArc "" stDraft).wrote =
      true ∧
    (processWorkRecord ⟨true, false⟩ (Cell.cdate 2026 10 12) fmArc ""
        (processWorkRecord ⟨true, false⟩ (Cell.cdate 2026 10 12) fmArc ""
          stDraft).state).wrote = false ∧
    (processWorkRecord ⟨true, false⟩ (Cell.cdate 2026 10 12) fmArc ""
        (processWorkRecord ⟨true, false⟩ (Cell.cdate 2026 10 12) fmArc ""
          stDraft).state).state =
      (processWorkRecord ⟨true, false⟩ (Cell.cdate 2026 10 12) fmArc "" stDraft).state :=
  writer_idempotent_two_runs fmArc "" (Cell.cdate 2026 10 12) stDraft
    (by decide) (by decide)

/-- C4: the status and published_date cells are mutated only after an actual
write in a write-enabled run: a checksum-match skip or a preview run leaves
both cells unchanged (and a preview run leaves the whole state unchanged). -/
theorem skip_and_preview_frame (args : GenArgs) (today : Cell)
    (fm : List (String × Json)) (body : String) (st : WorkRowState)
    (h : (processWorkRecord args today fm body st).wrote = false ∨ args.write = false) :
    (processWorkRecord args today fm body st).state.statusCell = st.statusCell ∧
    (processWorkRecord args today fm body st).state.publishedDateCell =
      st.publishedDateCell ∧
    (args.write = false → (processWorkRecord args today fm body st).state = st) := by
  unfold processWorkRecord at h ⊢
  by_cases ha : is_actionable_status (normalize_status st.statusCell) args.force = true
  · simp only [ha, if_true] at h ⊢
    by_cases hwp : write_page st.outFile (compute_work_checksum fm) args.force = true
    · simp only [hwp, if_true] at h ⊢
      rcases hb : args.write with _ | _
      · simp [hb]
      · simp only [hb, if_true] at h ⊢
        rcases h with h | h
        · simp at h
        · simp at h
    · simp only [Bool.not_eq_true] at hwp
      simp [hwp]
  · simp only [Bool.not_eq_true] at ha
    simp [ha]

/-- Witness for C4: a preview run on the scenario record mutates nothing. -/
theorem skip_and_preview_frame_witness :
    (processWorkRecord ⟨false, false⟩ (Cell.cdate 2026 10 12) fmArc ""
        stDraft).state.statusCell = stDraft.statusCell ∧
    (processWorkRecord ⟨false, false⟩ (Cell.cdate 2026 10 12) fmArc ""
        stDraft).state.publishedDateCell = stDraft.publishedDateCell ∧
    ((⟨false, false⟩ : GenArgs).write = false →
      (processWorkRecord ⟨false, false⟩ (Cell.cdate 2026 10 12) fmArc ""
        stDraft).state = stDraft) :=
  skip_and_preview_frame ⟨false, false⟩ (Cell.cdate 2026 10 12) fmArc "" stDraft
    (Or.inr rfl)

/- ===================== C7: inline list vs ids file ===================== -/

theorem mem_insertSlugIds (x : String) (items : List String) :
    ∀ acc out : List String,
    insertSlugIds acc items = .ok out →
    (x ∈ out ↔ x ∈ acc ∨ ∃ w ∈ items, strEmpty (pyStrip w) = false ∧
       slug_id (Cell.cstr (pyStrip w)) 5 = .ok x) := by
  induction items with
  | nil =>
    intro acc out h
    injection h with h
    subst h
    simp
  | cons w rest ih =>
    intro acc out h
    simp only [insertSlugIds] at h
    by_cases he : strEmpty (pyStrip w) = true
    · rw [if_pos he] at h
      rw [ih acc out h]
      constructor
      · rintro (hx | ⟨w2, hw2, hp⟩)
        · exact Or.inl hx
        · exact Or.inr ⟨w2, List.mem_cons_of_mem _ hw2, hp⟩
      · rintro (hx | ⟨w2, hw2, hp1, hp2⟩)
        · exact Or.inl hx
        · rcases List.mem_cons.mp hw2 with rfl | hw2
          · rw [he] at hp1
            simp at hp1
          · exact Or.inr ⟨w2, hw2, hp1, hp2⟩
    · rw [if_neg he] at h
      rcases hs : slug_id (Cell.cstr (pyStrip w)) 5 with e | v
      · rw [hs] at h
        exact Except.noConfusion h
      · rw [hs] at h
        rw [ih _ _ h, mem_insertSet]
        constructor
        · rintro ((rfl | hx) | ⟨w2, hw2, hp⟩)
          · exact Or.inr ⟨w, List.mem_cons_self _ _,
              by simpa using he, hs⟩
          · exact Or.inl hx
          · exact Or.inr ⟨w2, List.mem_cons_of_mem _ hw2, hp⟩
        · rintro (hx | ⟨w2, hw2, hp1, hp2⟩)
          · exact Or.inl (Or.inr hx)
          · rcases List.mem_cons.mp hw2 with rfl | hw2
            · rw [hs] at hp2
              injection hp2 with hv
              exact Or.inl (Or.inl hv.symm)
            · exact Or.inr ⟨w2, hw2, hp1, hp2⟩

/-- C7 counterexample: with an ids file holding `2` and the inline list `3`,
`generate_work_pages.py` selects only `00002` — the inline id is dropped, not
unioned (the pipeline script, by contrast, does union, and leaves file ids
unnormalised). -/
theorem scope_not_unioned_counterexample :
    selectedWorkIdsGen (some "2\n") "3" = .ok (some ["00002"]) ∧
    explicitWorkIdsPipeline (some "2\n") "3" = .ok ["2", "00003"] ∧
    "00003" ∉ (["00002"] : List String) :=
  ⟨rfl, rfl, by decide⟩

/-- C7 amended: when both sources are supplied, `generate_work_pages.py` uses
the ids file alone (the inline list is ignored entirely), while
`run_draft_pipeline.py` unions the two sources — raw stripped lines from the
file, slug-normalised ids from the inline list. -/
theorem scope_file_wins_generator_union_pipeline :
    (∀ text inline1 inline2 : String,
       selectedWorkIdsGen (some text) inline1 =
         selectedWorkIdsGen (some text) inline2) ∧
    (∀ (fileText : Option String) (inline : String) (out : List String) (x : String),
       explicitWorkIdsPipeline fileText inline = .ok out →
       (x ∈ out ↔
         x ∈ pipelineBase fileText ∨
         (inline ≠ "" ∧ ∃ w ∈ pySplitAll "," inline,
            strEmpty (pyStrip w) = false ∧
            slug_id (Cell.cstr (pyStrip w)) 5 = .ok x))) := by
  constructor
  · intro text i1 i2
    rfl
  · intro fileText inline out x h
    unfold explicitWorkIdsPipeline at h
    by_cases hi : inline = ""
    · subst hi
      rw [if_neg (by simp)] at h
      injection h with h
      subst h
      simp
    · rw [if_pos hi] at h
      rw [mem_insertSlugIds x _ _ _ h]
      simp [hi]

/-- Witness for the amended C7 at the counterexample input. -/
theorem scope_file_wins_generator_union_pipeline_witness :
    "00003" ∈ (["2", "00003"] : List String) ↔
      "00003" ∈ pipelineBase (some "2\n") ∨
      (("3" : String) ≠ "" ∧ ∃ w ∈ pySplitAll "," "3",
         strEmpty (pyStrip w) = false ∧
         slug_id (Cell.cstr (pyStrip w)) 5 = .ok "00003") :=
  scope_file_wins_generator_union_pipeline.2 (some "2\n") "3" ["2", "00003"]
    "00003" rfl

/- ===================== C6: series scope under an explicit work filter ===================== -/

theorem mem_affectedSeriesIds (ids : List String) (x : String) (rows : List WorkRow) :
    ∀ acc out : List String,
    affectedSeriesIds (some ids) acc rows = .ok out →
    (x ∈ out ↔ x ∈ acc ∨ ∃ wr ∈ rows, rowContribution ids wr x) := by
  induction rows with
  | nil =>
    intro acc out h
    injection h with h
    subst h
    simp
  | cons wr rest ih =>
    intro acc out h
    have passthrough : ¬ rowContribution ids wr x →
        (x ∈ out ↔ x ∈ acc ∨ ∃ w2 ∈ rest, rowContribution ids w2 x) →
        (x ∈ out ↔ x ∈ acc ∨ ∃ w2 ∈ wr :: rest, rowContribution ids w2 x) := by
      intro hno hiff
      rw [hiff]
      constructor
      · rintro (hx | ⟨w2, hw2, hp⟩)
        · exact Or.inl hx
        · exact Or.inr ⟨w2, List.mem_cons_of_mem _ hw2, hp⟩
      · rintro (hx | ⟨w2, hw2, hp⟩)
        · exact Or.inl hx
        · rcases List.mem_cons.mp hw2 with heq | hw2
          · exact absurd (heq ▸ hp) hno
          · exact Or.inr ⟨w2, hw2, hp⟩
    simp only [affectedSeriesIds] at h
    by_cases h1 : is_empty wr.work_id = true
    · rw [if_pos h1] at h
      refine passthrough ?_ (ih acc out h)
      rintro ⟨hpa, -, -, -, -⟩
      rw [h1] at hpa
      simp at hpa
    · rw [if_neg h1] at h
      rcases hs : slug_id wr.work_id 5 with e | wid
      · rw [hs] at h
        exact Except.noConfusion h
      · rw [hs] at h
        dsimp only at h
        by_cases h2 : decide (wid ∉ ids) = true
        · rw [if_pos h2] at h
          refine passthrough ?_ (ih acc out h)
          rintro ⟨-, ⟨wid2, hs2, hmem⟩, -, -, -⟩
          rw [hs] at hs2
          injection hs2 with hv
          exact absurd (hv ▸ hmem) (of_decide_eq_true h2)
        · rw [if_neg h2] at h
          have hmem : wid ∈ ids := by simpa using h2
          by_cases h3 : is_empty wr.series_id = true
          · rw [if_pos h3] at h
            refine passthrough ?_ (ih acc out h)
            rintro ⟨-, -, hpc, -, -⟩
            rw [h3] at hpc
            simp at hpc
          · rw [if_neg h3] at h
            by_cases h4 : is_slug_safe (normalize_text wr.series_id) = true
            · rw [if_pos h4] at h
              rw [ih _ _ h, mem_insertSet]
              constructor
              · rintro ((rfl | hx) | ⟨w2, hw2, hp⟩)
                · exact Or.inr ⟨wr, List.mem_cons_self _ _,
                    by simpa using h1, ⟨wid, hs, hmem⟩, by simpa using h3, rfl, h4⟩
                · exact Or.inl hx
                · exact Or.inr ⟨w2, List.mem_cons_of_mem _ hw2, hp⟩
              · rintro (hx | ⟨w2, hw2, hp⟩)
                · exact Or.inl (Or.inr hx)
                · rcases List.mem_cons.mp hw2 with heq | hw2
                  · obtain ⟨-, -, -, hpd, -⟩ := heq ▸ hp
                    exact Or.inl (Or.inl hpd.symm)
                  · exact Or.inr ⟨w2, hw2, hp⟩
            · rw [if_neg h4] at h
              refine passthrough ?_ (ih acc out h)
              rintro ⟨-, -, -, hpd, hpe⟩
              exact absurd (hpd ▸ hpe) h4

/-- C6: an explicit work-id scope with no explicit series scope turns series
*page* regeneration off, and scopes the series JSON regeneration to exactly the
series ids referenced by the selected work rows. -/
theorem scoped_run_series_json_scope (ids : List String) (rows : List WorkRow)
    (out : List String) (sid : String)
    (h : affectedSeriesIds (some ids) [] rows = .ok out) :
    resolveSeriesScope true none (some ids) rows = .ok (false, some out) ∧
    (sid ∈ out ↔ ∃ wr ∈ rows, rowContribution ids wr sid) := by
  constructor
  · unfold resolveSeriesScope
    rw [h]
    rfl
  · have := mem_affectedSeriesIds ids sid rows [] out h
    simpa using this

/-- Witness for C6: scoping to works 00001 and 00002 turns series pages off and
scopes series JSON regeneration to `dots` and `curve`. -/
theorem scoped_run_series_json_scope_witness :
    resolveSeriesScope true none (some ["00001", "00002"]) demoWorksRows =
      .ok (false, some ["dots", "curve"]) ∧
    ("dots" ∈ (["dots", "curve"] : List String) ↔
      ∃ wr ∈ demoWorksRows, rowContribution ["00001", "00002"] wr "dots") :=
  scoped_run_series_json_scope ["00001", "00002"] demoWorksRows ["dots", "curve"]
    "dots" (by rfl)

end DLF
